import Mathlib

/-!
Verification of the `imc_ivg` repository's core logic against its
natural-language specification.

The repository is a role-based administrative application recording volunteer
biometric data (weight, height), deriving BMI, and keeping an audit trail.
The authoritative code embedded here:

* `schema.sql` — the MySQL triggers `calculate_bmi_before_insert` /
  `calculate_bmi_before_update` and the stored procedures
  `create_volunteer_with_audit` / `soft_delete_volunteer`;
* `src/controllers/project.controller.js` (`ProjectController`), the audit
  model (`Audit.create`, `Audit.findAll`), the user model
  (`User.incrementFailedAttempts`, `User.resetFailedAttempts`,
  `User.isAccountLocked`), the login route, and the validation middleware
  (`validateVolunteer`).

Decimal columns (`DECIMAL(7,2)` weight, `DECIMAL(4,2)` height and BMI) are
modelled exactly as integers counting hundredths of a unit: a weight of
70.50 kg is the integer 7050 and a height of 1.75 m is 175.
-/

/-- User roles, from the `users.user_role` enum
(`Administrador`, `Calidad`, `Usuario`). -/
inductive Role where
  | administrador
  | calidad
  | usuario
deriving DecidableEq

/-- Project status, from the `projects.project_status` enum
(`Activo`, `Cerrado`, `Archivado`). -/
inductive ProjectStatus where
  | activo
  | cerrado
  | archivado
deriving DecidableEq

/-- Volunteer gender, from the `volunteers.gender` enum. -/
inductive Gender where
  | male
  | female
  | unspecified
deriving DecidableEq

/-- BMI category, from the `volunteers.bmi_category` enum. -/
inductive BmiCategory where
  | low
  | normal
  | high
deriving DecidableEq

/-- BMI traffic-light color, from the `volunteers.bmi_color` enum. -/
inductive BmiColor where
  | yellow
  | green
  | red
deriving DecidableEq

/-- Audited entity type, from the `audit_trail.entity_type` enum. -/
inductive EntityType where
  | user
  | project
  | volunteer
deriving DecidableEq

/-- Audited action, from the `audit_trail.action_type` enum. -/
inductive ActionType where
  | create
  | update
  | delete
deriving DecidableEq

/-- Half-up rounding of the nonnegative fraction `num / den` to the nearest
integer: `(2 * num + den) / (2 * den)` in natural division.  This is the
integer MySQL `ROUND` produces on a nonnegative decimal quotient
(MySQL rounds decimals half away from zero, which is half up for
nonnegative values). -/
def roundHalfUp (num den : Nat) : Nat :=
  (2 * num + den) / (2 * den)

/-- Body of `SET NEW.bmi = ROUND(NEW.weight_kg / (NEW.height_m * NEW.height_m), 2)`
from the trigger `calculate_bmi_before_insert` in `schema.sql`, on a nonzero
height.  Inputs are hundredths (`w100` = weight in hundredths of a kg,
`h100` = height in hundredths of a metre), the result the BMI in hundredths.
MySQL evaluates the `DECIMAL` division at scale 6 — the dividend's scale 2
plus `div_precision_increment` (default 4) — rounding the quotient half up
at that scale, and `ROUND(·, 2)` then rounds that scale-6 value half up
again.  The quotient in millionths is `10^8 * w100 / h100²`; the inner
`roundHalfUp` is the scale-6 division result, the outer one is `ROUND`. -/
def bmiOf (w100 h100 : Nat) : Nat :=
  roundHalfUp (roundHalfUp (100000000 * w100) (h100 * h100)) 10000

/-- Category branch of the trigger `calculate_bmi_before_insert`:
`IF NEW.bmi < 18.00 THEN 'Low' ELSEIF NEW.bmi <= 27.00 THEN 'Normal'
ELSE 'High'`.  The argument is the BMI in hundredths. -/
def bmiCategoryOf (b : Nat) : BmiCategory :=
  if b < 1800 then .low else if b ≤ 2700 then .normal else .high

/-- Color branch of the trigger `calculate_bmi_before_insert`:
`Yellow` with `Low`, `Green` with `Normal`, `Red` with `High`. -/
def bmiColorOf (b : Nat) : BmiColor :=
  if b < 1800 then .yellow else if b ≤ 2700 then .green else .red

/-- The trigger `calculate_bmi_before_insert` in `schema.sql`.  It assigns
`NEW.bmi = ROUND(NEW.weight_kg / (NEW.height_m * NEW.height_m), 2)` and then
branches on `NEW.bmi` for category and color.  Two failure paths of the
real trigger are modelled as `none`: the division is performed with no zero
guard, so `height_m = 0` makes MySQL's division yield NULL (an error for
the NOT NULL `bmi` column); and `bmi` is a `DECIMAL(4,2)` column whose
maximum is 99.99, so a rounded BMI of 100.00 or more is out of range and
fails the assignment under MySQL's default strict mode. -/
def calculateBmiBeforeInsert (w100 h100 : Nat) :
    Option (Nat × BmiCategory × BmiColor) :=
  if h100 * h100 = 0 then none
  else
    let b := bmiOf w100 h100
    if 10000 ≤ b then none
    else some (b, bmiCategoryOf b, bmiColorOf b)

/-- Modelled from the spec (§4.1): half-up rounding of a rational to two
decimal places, returned scaled by 100 (the value in hundredths).  This is
the spec's `round(·, 2)` and is compared against the code's `bmiOf`. -/
def specRound2 (q : ℚ) : ℤ :=
  ⌊q * 100 + 1 / 2⌋

/-- Modelled from the spec (§4.1): `bmi = round(weightKg / heightM², 2)`,
in hundredths.  Arguments are the spec's real-valued weight and height.
This is the single exact rounding the spec claims; the code performs a
two-stage rounding instead (see `bmiOf`). -/
def specBmi100 (w h : ℚ) : ℤ :=
  specRound2 (w / (h * h))

/-- Half-up rounding of a rational to six decimal places, returned scaled
by a million: the value MySQL's scale-6 decimal division produces, used to
relate the code's nested natural-number roundings to exact rationals. -/
def specRound6 (q : ℚ) : ℤ :=
  ⌊q * 1000000 + 1 / 2⌋

theorem roundHalfUp_eq_floor (num den : Nat) (hden : den ≠ 0) :
    (roundHalfUp num den : ℤ) = ⌊(num : ℚ) / (den : ℚ) + 1 / 2⌋ := by
  have h1 : (num : ℚ) / (den : ℚ) + 1 / 2 =
      ((2 * num + den : ℕ) : ℚ) / ((2 * den : ℕ) : ℚ) := by
    have hd : ((den : ℚ)) ≠ 0 := by exact_mod_cast hden
    push_cast
    field_simp
    ring
  have h2 : (0 : ℚ) ≤ ((2 * num + den : ℕ) : ℚ) / ((2 * den : ℕ) : ℚ) := by
    positivity
  rw [h1, ← Int.natCast_floor_eq_floor h2, Nat.floor_div_eq_div]
  rfl

/-- The code's BMI — the nested natural-number half-up roundings of
`bmiOf` — equals the rational two-stage value: the quotient rounded half up
at scale 6 and that scale-6 value rounded half up to 2 decimals. -/
theorem bmiOf_eq_two_stage (w100 h100 : Nat) (hh : h100 ≠ 0) :
    (bmiOf w100 h100 : ℤ) =
      specRound2 ((specRound6 (((w100 : ℚ) / 100) /
        (((h100 : ℚ) / 100) * ((h100 : ℚ) / 100))) : ℚ) / 1000000) := by
  have hden : h100 * h100 ≠ 0 := Nat.mul_ne_zero hh hh
  have hq : ((h100 : ℚ)) ≠ 0 := by exact_mod_cast hh
  have hinner : ((roundHalfUp (100000000 * w100) (h100 * h100) : ℕ) : ℤ) =
      specRound6 (((w100 : ℚ) / 100) /
        (((h100 : ℚ) / 100) * ((h100 : ℚ) / 100))) := by
    unfold specRound6
    rw [roundHalfUp_eq_floor _ _ hden]
    congr 1
    push_cast
    field_simp
    ring
  have hcast : ((roundHalfUp (100000000 * w100) (h100 * h100) : ℕ) : ℚ) =
      ((specRound6 (((w100 : ℚ) / 100) /
        (((h100 : ℚ) / 100) * ((h100 : ℚ) / 100))) : ℤ) : ℚ) := by
    exact_mod_cast hinner
  unfold bmiOf specRound2
  rw [roundHalfUp_eq_floor _ _ (by norm_num : (10000 : ℕ) ≠ 0), hcast]
  congr 1
  push_cast
  ring

/-- Account status, from the `users.user_status` enum (`Activo`, `Inactivo`). -/
inductive UserStatus where
  | activo
  | inactivo
deriving DecidableEq

/-- A row of the `users` table (the fields the embedded operations read:
identity, role-independent login-security counters and name fields; the
password hash is abstracted into the `passwordOk` argument of `loginPost`). -/
structure UserAccount where
  id : Nat
  username : String
  email : String
  status : UserStatus
  failed_login_attempts : Nat
  account_locked_until : Option Nat
deriving DecidableEq

/-- A row of the `projects` table (fields the embedded operations read). -/
structure Project where
  id : Nat
  name : String
  responsible_user_id : Nat
  status : ProjectStatus
deriving DecidableEq

/-- A row of the `volunteers` table.  `weight100`, `height100` and `bmi` are
the `DECIMAL` columns in hundredths; `correlative` is the numeric part `N` of
the `volunteer_correlative` label `"Voluntario N"` (the procedure extracts it
with `CAST(SUBSTRING(volunteer_correlative, 11) AS UNSIGNED)`). -/
structure Volunteer where
  id : Nat
  correlative : Nat
  project_id : Nat
  gender : Gender
  weight100 : Nat
  height100 : Nat
  bmi : Nat
  bmi_category : BmiCategory
  bmi_color : BmiColor
  is_deleted : Bool
  deleted_at : Option Nat
  deleted_by : Option Nat
  registered_by : Nat
  registered_at : Nat
deriving DecidableEq

/-- A row of the `audit_trail` table.  The JSON before/after snapshots are
opaque payloads stored verbatim (spec §6) and are omitted from the model;
no embedded claim reads them. -/
structure AuditEntry where
  entity_type : EntityType
  entity_id : Nat
  project_id : Option Nat
  action_type : ActionType
  user_id : Nat
  user_ip : Option String
  user_agent : Option String
  timestamp : Nat
  action_description : Option String
deriving DecidableEq

/-- The logical data store: the four tables the embedded operations touch. -/
structure DbState where
  users : List UserAccount
  projects : List Project
  volunteers : List Volunteer
  audits : List AuditEntry
deriving DecidableEq

/-- Errors surfaced by the embedded operations: the two stored-procedure
`SIGNAL`s of `schema.sql` (each a single combined message), the JS
controller errors (`NotFoundError`, `ForbiddenError`), the 400 response of
the validation middleware, the spec's `InvalidState`, and a generic
underlying-store write failure. -/
inductive DomainError where
  | projectNotFoundOrInactive
  | volunteerNotFoundOrDeleted
  | notFound
  | forbidden
  | invalidState
  | validationFailed (errors : List String)
  | dbError
deriving DecidableEq

/-- The human-readable correlative label, `CONCAT('Voluntario ', n)`. -/
def correlativeLabel (n : Nat) : String :=
  "Voluntario " ++ toString n

/-- Next correlative for a project, from `create_volunteer_with_audit`:
`SELECT COALESCE(MAX(CAST(SUBSTRING(volunteer_correlative, 11) AS UNSIGNED)), 0) + 1
FROM volunteers WHERE project_id = ?`.  The `WHERE` clause filters only on
the project — there is no `is_deleted` condition, so soft-deleted volunteers
participate in the maximum. -/
def nextCorrelative (vols : List Volunteer) (pid : Nat) : Nat :=
  ((vols.filter (fun v => v.project_id == pid)).map
    (fun v => v.correlative)).foldr max 0 + 1

/-- Fresh `AUTO_INCREMENT` id for a table whose existing ids are given:
one more than the maximum existing id (1 on an empty table). -/
def nextId (ids : List Nat) : Nat :=
  ids.foldr max 0 + 1

/-- The stored procedure `create_volunteer_with_audit` of `schema.sql`:
checks `COUNT(*)` of projects with the given id and status `Activo` and
`SIGNAL`s when zero; computes the next correlative; inserts the volunteer
(the insert trigger fills the BMI columns — a zero height makes that insert
fail, see `calculateBmiBeforeInsert`); then inserts one `CREATE` audit row
for entity `volunteer` with the new id.  The procedure receives no actor
role: only `p_registered_by`. -/
def createVolunteerWithAudit (st : DbState) (pid : Nat) (g : Gender)
    (w100 h100 registeredBy : Nat) (ip ua : Option String) (now : Nat) :
    Except DomainError DbState :=
  if (st.projects.filter
      (fun p => p.id == pid && p.status == ProjectStatus.activo)).length = 0 then
    .error .projectNotFoundOrInactive
  else
    let corr := nextCorrelative st.volunteers pid
    match calculateBmiBeforeInsert w100 h100 with
    | none => .error .dbError
    | some (b, cat, col) =>
      let vid := nextId (st.volunteers.map (fun v => v.id))
      let v : Volunteer :=
        { id := vid, correlative := corr, project_id := pid, gender := g,
          weight100 := w100, height100 := h100, bmi := b,
          bmi_category := cat, bmi_color := col, is_deleted := false,
          deleted_at := none, deleted_by := none,
          registered_by := registeredBy, registered_at := now }
      let entry : AuditEntry :=
        { entity_type := .volunteer, entity_id := vid,
          project_id := some pid, action_type := .create,
          user_id := registeredBy, user_ip := ip, user_agent := ua,
          timestamp := now, action_description := none }
      .ok { st with volunteers := v :: st.volunteers,
                    audits := entry :: st.audits }

/-- Description built by `soft_delete_volunteer`:
`CONCAT('Eliminación de ', v_correlative, '. Razón: ',
COALESCE(p_reason, 'No especificada'))`. -/
def softDeleteDescription (corr : String) (reason : Option String) : String :=
  "Eliminación de " ++ corr ++ ". Razón: " ++ reason.getD ("No especificada")

/-- The stored procedure `soft_delete_volunteer` of `schema.sql`: selects the
volunteer `WHERE id = ? AND is_deleted = FALSE` and `SIGNAL`s
(`'Voluntario no encontrado o ya eliminado'`) when no row matches; otherwise
updates that row (`is_deleted = TRUE`, `deleted_by`, `deleted_at`) and, the
update having touched a row, inserts one `DELETE` audit entry whose
description embeds the reason.  The `SIGNAL` aborts before any write. -/
def softDeleteVolunteer (st : DbState) (vid deletedBy : Nat)
    (ip ua : Option String) (reason : Option String) (now : Nat) :
    Except DomainError DbState :=
  match st.volunteers.find? (fun v => v.id == vid && !v.is_deleted) with
  | none => .error .volunteerNotFoundOrDeleted
  | some v =>
    let vols := st.volunteers.map (fun w =>
      if w.id == vid && !w.is_deleted then
        { w with is_deleted := true, deleted_by := some deletedBy,
                 deleted_at := some now }
      else w)
    let entry : AuditEntry :=
      { entity_type := .volunteer, entity_id := vid,
        project_id := some v.project_id, action_type := .delete,
        user_id := deletedBy, user_ip := ip, user_agent := ua,
        timestamp := now,
        action_description :=
          some (softDeleteDescription (correlativeLabel v.correlative) reason) }
    .ok { st with volunteers := vols, audits := entry :: st.audits }

/-- The trigger `calculate_bmi_before_update` of `schema.sql`, mapping the
`OLD` row and the incoming `NEW` row to the final `NEW` row.  It recomputes
the BMI columns only under
`IF NEW.weight_kg != OLD.weight_kg OR NEW.height_m != OLD.height_m`
(the recomputation is the same unguarded `ROUND` division as on insert, so a
zero new height makes the update fail, modelled `none`), and independently
stamps `deleted_at` on the `FALSE → TRUE` transition of `is_deleted`. -/
def calculateBmiBeforeUpdate (old new_ : Volunteer) (now : Nat) :
    Option Volunteer :=
  let recomputed :=
    if new_.weight100 != old.weight100 || new_.height100 != old.height100 then
      match calculateBmiBeforeInsert new_.weight100 new_.height100 with
      | none => none
      | some (b, cat, col) =>
        some { new_ with bmi := b, bmi_category := cat, bmi_color := col }
    else
      some new_
  recomputed.map (fun r =>
    if new_.is_deleted && !old.is_deleted then { r with deleted_at := some now }
    else r)

/-- A client patch for a volunteer update.  Only gender, weight and height
are client-settable; the derived BMI columns are never accepted as input
(spec §3 invariant), so an application `UPDATE` assigns at most these three
columns and every unassigned column of `NEW` keeps its `OLD` value. -/
structure VolunteerPatch where
  gender : Option Gender := none
  weight100 : Option Nat := none
  height100 : Option Nat := none
deriving DecidableEq

/-- The `NEW` row an application volunteer `UPDATE` presents to the update
trigger: `OLD` with the patched columns replaced. -/
def applyPatch (old : Volunteer) (patch : VolunteerPatch) : Volunteer :=
  { old with gender := patch.gender.getD old.gender,
             weight100 := patch.weight100.getD old.weight100,
             height100 := patch.height100.getD old.height100 }

/-- A volunteer row update as executed by the database: the application's
patched row passed through `calculate_bmi_before_update`. -/
def updateVolunteerRow (old : Volunteer) (patch : VolunteerPatch)
    (now : Nat) : Option Volunteer :=
  calculateBmiBeforeUpdate old (applyPatch old patch) now

/-- The authenticated actor attached to a request (`req.user`). -/
structure Actor where
  id : Nat
  role : Role
deriving DecidableEq

/-- Request body of `ProjectController.createProject`. -/
structure ProjectBody where
  name : String
  responsible_user_id : Option Nat
deriving DecidableEq

/-- Responsible-user defaulting in `ProjectController.createProject`:
an `Administrador` may name another user (`req.body.responsible_user_id ||
req.user.id`); any other actor becomes the responsible user themselves. -/
def responsibleFor (actor : Actor) (body : ProjectBody) : Nat :=
  if actor.role == Role.administrador then
    body.responsible_user_id.getD actor.id
  else actor.id

/-- Outcome of the two underlying store writes a JS controller issues.  Each
`db.query` call is a separate auto-committed statement on the shared pool
(`src/config/database.js`); there is no `BEGIN`/`COMMIT` anywhere in the
controllers, so the second statement's failure cannot undo the first. -/
structure WriteOutcome where
  domainWriteOk : Bool
  auditWriteOk : Bool
deriving DecidableEq

/-- Number of audit entries matching an entity type, entity id and action. -/
def matchCount (audits : List AuditEntry) (et : EntityType) (eid : Nat)
    (act : ActionType) : Nat :=
  (audits.filter (fun a =>
    a.entity_type == et && a.entity_id == eid && a.action_type == act)).length

/-- `ProjectController.createProject`: computes the project data with the
responsible-user defaulting, awaits `Project.create` (one INSERT), then
awaits `Audit.create` (a second, independent INSERT).  A failure of either
await raises and is passed to the error middleware; a failure of the audit
INSERT happens after the project INSERT has already been auto-committed. -/
def createProjectJs (st : DbState) (actor : Actor) (body : ProjectBody)
    (w : WriteOutcome) (ip ua : Option String) (now : Nat) :
    Except DomainError Unit × DbState :=
  if !w.domainWriteOk then (.error .dbError, st)
  else
    let pid := nextId (st.projects.map (fun p => p.id))
    let p : Project :=
      { id := pid, name := body.name,
        responsible_user_id := responsibleFor actor body,
        status := .activo }
    let st1 := { st with projects := p :: st.projects }
    if !w.auditWriteOk then (.error .dbError, st1)
    else
      let entry : AuditEntry :=
        { entity_type := .project, entity_id := pid, project_id := none,
          action_type := .create, user_id := actor.id, user_ip := ip,
          user_agent := ua, timestamp := now,
          action_description :=
            some ("Proyecto \"" ++ body.name ++ "\" creado") }
      (.ok (), { st1 with audits := entry :: st1.audits })

/-- The permission ladder of `ProjectController.updateProject`, applied
after the project is found: `Usuario` may only edit projects they are
responsible for; `Calidad` is rejected unless the body sets
`project_status` to `Archivado`; `Administrador` triggers neither check. -/
def updateProjectAuth (actor : Actor) (p : Project)
    (patchStatus : Option ProjectStatus) : Except DomainError Unit :=
  if actor.role == Role.usuario && p.responsible_user_id != actor.id then
    .error .forbidden
  else if actor.role == Role.calidad
      && patchStatus != some ProjectStatus.archivado then
    .error .forbidden
  else
    .ok ()

/-- Modelled from the spec: the guard of `updateVolunteer` in the Volunteer
Lifecycle Manager (§4.3).  The volunteer update controller/model is not
among the provided sources (only the update trigger is); per §4.3 the
operation requires the record to exist and not be deleted, and the owning
project not to be `Archived` (else `InvalidState`), before any write. -/
def updateVolunteerGuard (st : DbState) (vid : Nat) :
    Except DomainError Unit :=
  match st.volunteers.find? (fun v => v.id == vid && !v.is_deleted) with
  | none => .error .notFound
  | some v =>
    match st.projects.find? (fun p => p.id == v.project_id) with
    | none => .error .notFound
    | some p =>
      if p.status == ProjectStatus.archivado then .error .invalidState
      else .ok ()

/-- Newest-first order on audit entries: `ORDER BY a.timestamp DESC`. -/
def newestFirst (a b : AuditEntry) : Prop :=
  b.timestamp ≤ a.timestamp

instance : DecidableRel newestFirst :=
  fun a b => inferInstanceAs (Decidable (b.timestamp ≤ a.timestamp))

instance : IsTotal AuditEntry newestFirst :=
  ⟨fun a b => le_total b.timestamp a.timestamp⟩

instance : IsTrans AuditEntry newestFirst :=
  ⟨fun _ _ _ h1 h2 => le_trans h2 h1⟩

/-- The optional filters of `Audit.findAll`'s WHERE clause that the model
carries (the date-range and free-text filters are omitted; no claim reads
them). -/
structure AuditFilters where
  entity_type : Option EntityType := none
  action_type : Option ActionType := none
  user_id : Option Nat := none
  project_id : Option Nat := none
deriving DecidableEq

/-- WHERE-clause predicate of `Audit.findAll`: each supplied filter adds one
`AND` equality condition. -/
def auditMatches (f : AuditFilters) (a : AuditEntry) : Bool :=
  (match f.entity_type with | none => true | some t => a.entity_type == t)
  && (match f.action_type with | none => true | some t => a.action_type == t)
  && (match f.user_id with | none => true | some u => a.user_id == u)
  && (match f.project_id with
      | none => true
      | some pv => a.project_id == some pv)

/-- Entity-name resolution of `Audit.findAll`: the correlated `CASE`
subquery (`SELECT username FROM users WHERE id = a.entity_id`, likewise
`projects.name` and `volunteers.volunteer_correlative`).  A missing
referenced row makes the scalar subquery yield SQL NULL (`none`); the
volunteer subquery carries no `is_deleted` condition, so a soft-deleted
volunteer still resolves to its correlative. -/
def resolveEntityName (st : DbState) (et : EntityType) (eid : Nat) :
    Option String :=
  match et with
  | .user => (st.users.find? (fun u => u.id == eid)).map
      (fun u => u.username)
  | .project => (st.projects.find? (fun p => p.id == eid)).map
      (fun p => p.name)
  | .volunteer => (st.volunteers.find? (fun v => v.id == eid)).map
      (fun v => correlativeLabel v.correlative)

/-- One row of the `Audit.findAll` result set: the audit columns plus the
LEFT-JOINed `user_name` and `project_name` and the `CASE`-resolved
`entity_name` (each SQL NULL when the referenced row is absent). -/
structure AuditRow where
  entry : AuditEntry
  user_name : Option String
  project_name : Option String
  entity_name : Option String
deriving DecidableEq

/-- `Audit.findAll` of `src/models/audit.model.js`: filter by the WHERE
clause, order `ORDER BY a.timestamp DESC`, and annotate every row with the
best-effort names (LEFT JOINs and correlated subqueries, which yield NULL
rather than dropping or failing the row when a referenced entity is
missing).  Pagination (`LIMIT ? OFFSET ?`) is outside every claim and is
not modelled. -/
def auditFindAll (st : DbState) (f : AuditFilters) : List AuditRow :=
  ((st.audits.filter (auditMatches f)).insertionSort newestFirst).map
    (fun a =>
      { entry := a,
        user_name := (st.users.find? (fun u => u.id == a.user_id)).map
          (fun u => u.username),
        project_name := a.project_id.bind (fun pid =>
          (st.projects.find? (fun p => p.id == pid)).map (fun p => p.name)),
        entity_name := resolveEntityName st a.entity_type a.entity_id })

/-- `validateVolunteer` of the validation middleware, restricted to the two
measurement fields the claims read.  A JS value is `none` for a missing or
non-numeric field; `weight_kg` and `height_m` arrive in hundredths as
integers (a JS `0` is falsy and caught by the required-field branch first).
Source branches: `!weight_kg || isNaN(weight_kg)` → required;
`weight_kg <= 0 || weight_kg > 500` → range; `!height_m || isNaN(height_m)`
→ required; `height_m < 1.00 || height_m > 2.50` → range. -/
def weightErrors (weight : Option Int) : List String :=
  match weight with
  | none => ["El peso es requerido y debe ser un número"]
  | some w =>
    if w = 0 then ["El peso es requerido y debe ser un número"]
    else if w ≤ 0 ∨ 50000 < w then
      ["El peso debe estar entre 0.01 y 500.00 kg"]
    else []

/-- The height branch of `validateVolunteer`, in the same encoding. -/
def heightErrors (height : Option Int) : List String :=
  match height with
  | none => ["La estatura es requerida y debe ser un número"]
  | some h =>
    if h = 0 then ["La estatura es requerida y debe ser un número"]
    else if h < 100 ∨ 250 < h then
      ["La estatura debe estar entre 1.00 y 2.50 m"]
    else []

/-- The two measurement checks of `validateVolunteer` push their messages
onto one shared `errors` array. -/
def validateVolunteerMeasurements (weight height : Option Int) :
    List String :=
  weightErrors weight ++ heightErrors height

/-- The volunteer-creation endpoint pipeline: the `validateVolunteer`
middleware answers 400 with the collected errors before the controller (and
hence the BMI computation and any persistence) runs; only a validated
request reaches `create_volunteer_with_audit`. -/
def createVolunteerEndpoint (st : DbState) (pid : Nat) (g : Gender)
    (weight height : Option Int) (registeredBy : Nat)
    (ip ua : Option String) (now : Nat) : Except DomainError DbState :=
  let errs := validateVolunteerMeasurements weight height
  if errs.isEmpty then
    match weight, height with
    | some w, some h =>
      createVolunteerWithAudit st pid g w.toNat h.toNat registeredBy ip ua now
    | _, _ => .error (.validationFailed errs)
  else
    .error (.validationFailed errs)

/-- Result of a login attempt, from the branches of the `/login` route. -/
inductive LoginResult where
  | success
  | invalidCredentials
  | accountInactive
  | accountLocked
deriving DecidableEq

/-- `User.incrementFailedAttempts`: one UPDATE whose SET list first assigns
`failed_login_attempts = failed_login_attempts + 1` and then
`account_locked_until = CASE WHEN failed_login_attempts + 1 >= ?
THEN DATE_ADD(NOW(), INTERVAL ? MINUTE) ELSE account_locked_until END`.
MySQL evaluates single-table UPDATE SET assignments left to right, and a
column referenced after being assigned reads its updated value, so the CASE
condition sees the already-incremented counter: with old counter `c` it is
`(c + 1) + 1 >= maxAttempts`, and the lockout is set as soon as the new
counter reaches `maxAttempts - 1` — one failure before the configured
maximum.  Timestamps are modelled in minutes. -/
def incrementFailedAttempts (u : UserAccount)
    (maxAttempts lockoutMinutes now : Nat) : UserAccount :=
  let failed := u.failed_login_attempts + 1
  { u with
    failed_login_attempts := failed,
    account_locked_until :=
      if maxAttempts ≤ failed + 1 then
        some (now + lockoutMinutes)
      else u.account_locked_until }

/-- `User.resetFailedAttempts`: counter to 0, lockout cleared to NULL. -/
def resetFailedAttempts (u : UserAccount) : UserAccount :=
  { u with failed_login_attempts := 0, account_locked_until := none }

/-- `User.isAccountLocked`: no lockout timestamp means unlocked; otherwise
locked exactly while `lockUntil > now`. -/
def isAccountLocked (u : UserAccount) (now : Nat) : Bool :=
  match u.account_locked_until with
  | none => false
  | some t => now < t

/-- The `/login` route of `src/routes/auth.routes.js` for a known user: the
status check, then the lock check, then password verification; a wrong
password increments the failed counter (locking at the threshold), a right
one resets it.  `passwordOk` abstracts `User.verifyPassword` (bcrypt).  The
`login_attempts` logging rows are outside every claim. -/
def loginPost (u : UserAccount) (passwordOk : Bool)
    (maxAttempts lockoutMinutes now : Nat) : LoginResult × UserAccount :=
  if u.status != UserStatus.activo then (.accountInactive, u)
  else if isAccountLocked u now then (.accountLocked, u)
  else if !passwordOk then
    (.invalidCredentials, incrementFailedAttempts u maxAttempts lockoutMinutes now)
  else (.success, resetFailedAttempts u)

theorem le_foldr_max (l : List Nat) (a : Nat) (h : a ∈ l) :
    a ≤ l.foldr max 0 := by
  induction l with
  | nil => cases h
  | cons x xs ih =>
    rcases List.mem_cons.mp h with rfl | h2
    · exact le_max_left _ _
    · exact le_trans (ih h2) (le_max_right _ _)

/-- A fixed volunteer row for concrete scenarios (BMI fields consistent
with 70.50 kg, 1.75 m). -/
def sampleVolunteer (i corr pid : Nat) (del : Bool) : Volunteer :=
  { id := i, correlative := corr, project_id := pid,
    gender := .unspecified, weight100 := 7050, height100 := 175,
    bmi := 2302, bmi_category := .normal, bmi_color := .green,
    is_deleted := del,
    deleted_at := if del then some 10 else none,
    deleted_by := if del then some 1 else none,
    registered_by := 1, registered_at := 0 }

/-- The spec's correlative scenario: a project (id 7) with correlatives
1, 2, 3 whose number 2 is soft-deleted. -/
def c3Scenario : List Volunteer :=
  [sampleVolunteer 1 1 7 false, sampleVolunteer 2 2 7 true,
   sampleVolunteer 3 3 7 false]

/-- C2 counterexample: at 49.99 kg and 1.01 m — inside the claimed domain —
the trigger's scale-6 division rounds the quotient 49.00499951… up to
49.005000, and `ROUND(·, 2)` then gives 49.01, while the claimed single
exact rounding `round(w/h², 2)` is 49.00; moreover at 200 kg and 1.20 m
the rounded BMI 138.89 overflows the `DECIMAL(4,2)` column and the insert
fails instead of returning a BMI. -/
theorem bmi_exact_rounding_counterexample :
    calculateBmiBeforeInsert 4999 101 =
      some (4901, BmiCategory.high, BmiColor.red) ∧
    specBmi100 ((4999 : ℚ) / 100) ((101 : ℚ) / 100) = 4900 ∧
    calculateBmiBeforeInsert 20000 120 = none := by
  refine ⟨by decide, ?_, by decide⟩
  have hval : ((4999 : ℚ) / 100) /
      (((101 : ℚ) / 100) * ((101 : ℚ) / 100)) * 100 + 1 / 2 =
      99990201 / 20402 := by
    norm_num
  unfold specBmi100 specRound2
  rw [hval]
  rw [Int.floor_eq_iff]
  constructor
  · norm_num
  · norm_num

/-- C2 (amended): for every weight in (0, 500] kg and height in
[1.00, 2.50] m (in hundredths), the insert trigger derives the BMI by a
two-stage half-up rounding — the quotient `w/h²` rounded at MySQL's
division scale 6, then `ROUND(·, 2)` — which the code's nested
natural-number roundings match exactly; the derived value is stored (and
category/color follow the threshold table: `< 18.00` Low/Yellow,
`18.00 ≤ · ≤ 27.00` Normal/Green, `> 27.00` High/Red) only when it fits
the `DECIMAL(4,2)` column (< 100.00), the insert failing otherwise; in
particular 70.50 kg and 1.75 m give 23.02, Normal, Green. -/
theorem bmi_derivation_two_stage (w100 h100 : Nat) (_hw0 : 0 < w100)
    (_hw : w100 ≤ 50000) (hl : 100 ≤ h100) (hu : h100 ≤ 250) :
    (bmiOf w100 h100 : ℤ) =
      specRound2 ((specRound6 (((w100 : ℚ) / 100) /
        (((h100 : ℚ) / 100) * ((h100 : ℚ) / 100))) : ℚ) / 1000000) ∧
    (bmiOf w100 h100 < 10000 →
      calculateBmiBeforeInsert w100 h100 =
        some (bmiOf w100 h100, bmiCategoryOf (bmiOf w100 h100),
              bmiColorOf (bmiOf w100 h100))) ∧
    (10000 ≤ bmiOf w100 h100 →
      calculateBmiBeforeInsert w100 h100 = none) ∧
    (bmiOf w100 h100 < 1800 →
      bmiCategoryOf (bmiOf w100 h100) = .low ∧
      bmiColorOf (bmiOf w100 h100) = .yellow) ∧
    (1800 ≤ bmiOf w100 h100 → bmiOf w100 h100 ≤ 2700 →
      bmiCategoryOf (bmiOf w100 h100) = .normal ∧
      bmiColorOf (bmiOf w100 h100) = .green) ∧
    (2700 < bmiOf w100 h100 →
      bmiCategoryOf (bmiOf w100 h100) = .high ∧
      bmiColorOf (bmiOf w100 h100) = .red) ∧
    calculateBmiBeforeInsert 7050 175 =
      some (2302, .normal, .green) := by
  have hh : h100 ≠ 0 := by omega
  refine ⟨bmiOf_eq_two_stage w100 h100 hh, ?_, ?_, ?_, ?_, ?_, by decide⟩
  · intro hfit
    have hnotover : ¬ 10000 ≤ bmiOf w100 h100 := by omega
    simp [calculateBmiBeforeInsert, Nat.mul_ne_zero hh hh, hnotover]
  · intro hover
    simp [calculateBmiBeforeInsert, Nat.mul_ne_zero hh hh, hover]
  · intro h1
    simp [bmiCategoryOf, bmiColorOf, h1]
  · intro h1 h2
    have h3 : ¬ bmiOf w100 h100 < 1800 := by omega
    simp [bmiCategoryOf, bmiColorOf, h3, h2]
  · intro h1
    have h2 : ¬ bmiOf w100 h100 < 1800 := by omega
    have h3 : ¬ bmiOf w100 h100 ≤ 2700 := by omega
    simp [bmiCategoryOf, bmiColorOf, h2, h3]

theorem bmi_derivation_two_stage_witness :
    0 < 7050 ∧ 7050 ≤ 50000 ∧ 100 ≤ 175 ∧ 175 ≤ 250 ∧
    calculateBmiBeforeInsert 7050 175 =
      some (2302, BmiCategory.normal, BmiColor.green) :=
  ⟨by decide, by decide, by decide, by decide,
   (bmi_derivation_two_stage 7050 175 (by decide) (by decide) (by decide)
     (by decide)).2.2.2.2.2.2⟩

/-- C3: the next correlative for a project is one more than the maximum over
every volunteer of the project — the query has no `is_deleted` filter, so
soft-deleted volunteers count and a correlative is never reused — starting
at 1 for an empty project; the created volunteer receives exactly this
correlative, and the spec scenario (correlatives 1, 2, 3 with number 2
soft-deleted) assigns 4. -/
theorem correlative_assignment (vols : List Volunteer) (pid : Nat)
    (v : Volunteer) (hv : v ∈ vols) (hp : v.project_id = pid) :
    nextCorrelative ([] : List Volunteer) pid = 1 ∧
    v.correlative < nextCorrelative vols pid ∧
    (∀ st st2 g w100 h100 actorId ip ua now,
      st.volunteers = vols →
      createVolunteerWithAudit st pid g w100 h100 actorId ip ua now =
        .ok st2 →
      ∃ nv, st2.volunteers = nv :: vols ∧
        nv.correlative = nextCorrelative vols pid) ∧
    nextCorrelative c3Scenario 7 = 4 := by
  refine ⟨rfl, ?_, ?_, by decide⟩
  · have hmem : v.correlative ∈
        ((vols.filter (fun x => x.project_id == pid)).map
          (fun x => x.correlative)) :=
      List.mem_map.mpr ⟨v, List.mem_filter.mpr ⟨hv, by simp [hp]⟩, rfl⟩
    simp only [nextCorrelative]
    exact Nat.lt_succ_of_le (le_foldr_max _ _ hmem)
  · intro st st2 g w100 h100 actorId ip ua now hst hok
    subst hst
    by_cases hlen : (st.projects.filter
        (fun p => p.id == pid && p.status == ProjectStatus.activo)).length = 0
    · simp [createVolunteerWithAudit, hlen] at hok
    · rcases hc : calculateBmiBeforeInsert w100 h100 with _ | ⟨b, cat, col⟩
      · simp [createVolunteerWithAudit, hlen, hc] at hok
      · simp only [createVolunteerWithAudit, if_neg hlen, hc] at hok
        rw [Except.ok.injEq] at hok
        subst hok
        exact ⟨_, rfl, rfl⟩

theorem correlative_assignment_witness :
    sampleVolunteer 2 2 7 true ∈ c3Scenario ∧
    (sampleVolunteer 2 2 7 true).project_id = 7 ∧
    (sampleVolunteer 2 2 7 true).correlative < nextCorrelative c3Scenario 7 ∧
    nextCorrelative c3Scenario 7 = 4 :=
  ⟨by decide, by decide,
   (correlative_assignment c3Scenario 7 (sampleVolunteer 2 2 7 true)
     (by decide) (by decide)).2.1,
   (correlative_assignment c3Scenario 7 (sampleVolunteer 2 2 7 true)
     (by decide) (by decide)).2.2.2⟩

/-- A concrete store with one archived project (id 7) owning one volunteer
(id 1). -/
def c4State : DbState :=
  { users := [],
    projects := [{ id := 7, name := "Pilot", responsible_user_id := 1,
                   status := .archivado }],
    volunteers := [sampleVolunteer 1 1 7 false],
    audits := [] }

/-- C4: creating a volunteer fails with the procedure's combined
NotFound/InvalidState signal whenever no project with the given id is
`Activo` — so for a missing, `Cerrado` or `Archivado` project — for every
actor (the procedure receives no role), and the signal fires before any
insert; updating a volunteer whose owning project is `Archivado` fails with
`InvalidState` (update guard modelled from spec §4.3). -/
theorem archived_project_freeze (st : DbState) (pid : Nat) (g : Gender)
    (w100 h100 actorId : Nat) (ip ua : Option String) (now vid : Nat)
    (v : Volunteer) (p : Project) :
    ((∀ q ∈ st.projects, q.id = pid → q.status ≠ ProjectStatus.activo) →
      createVolunteerWithAudit st pid g w100 h100 actorId ip ua now =
        .error .projectNotFoundOrInactive) ∧
    (st.volunteers.find? (fun x => x.id == vid && !x.is_deleted) = some v →
      st.projects.find? (fun q => q.id == v.project_id) = some p →
      p.status = ProjectStatus.archivado →
      updateVolunteerGuard st vid = .error .invalidState) := by
  constructor
  · intro h
    have hfil : st.projects.filter
        (fun q => q.id == pid && q.status == ProjectStatus.activo) = [] := by
      rw [List.filter_eq_nil_iff]
      intro q hq
      simp only [Bool.and_eq_true, beq_iff_eq, not_and]
      exact fun h1 h2 => (h q hq h1) h2
    simp [createVolunteerWithAudit, hfil]
  · intro h1 h2 h3
    simp [updateVolunteerGuard, h1, h2, h3]

theorem archived_project_freeze_witness :
    createVolunteerWithAudit c4State 7 Gender.male 7050 175 3 none none 0 =
      .error .projectNotFoundOrInactive ∧
    updateVolunteerGuard c4State 1 = .error .invalidState :=
  ⟨(archived_project_freeze c4State 7 Gender.male 7050 175 3 none none 0 1
      (sampleVolunteer 1 1 7 false)
      { id := 7, name := "Pilot", responsible_user_id := 1,
        status := .archivado }).1 (by decide),
   (archived_project_freeze c4State 7 Gender.male 7050 175 3 none none 0 1
      (sampleVolunteer 1 1 7 false)
      { id := 7, name := "Pilot", responsible_user_id := 1,
        status := .archivado }).2 (by decide) (by decide) rfl⟩

/-- C5: soft-deleting an existing, not-yet-deleted volunteer succeeds,
flags the row with deletion timestamp and deleter, and appends exactly one
DELETE audit entry for that volunteer whose description ends with the
supplied reason; when every row with the target id is already deleted the
procedure signals its NotFound/AlreadyDeleted error before any write. -/
theorem soft_delete_volunteer_spec (st : DbState) (vid actorId : Nat)
    (ip ua : Option String) (r : String) (now : Nat) (v : Volunteer) :
    (st.volunteers.find? (fun x => x.id == vid && !x.is_deleted) = some v →
      ∃ st2, softDeleteVolunteer st vid actorId ip ua (some r) now =
          .ok st2 ∧
        (∃ w, w ∈ st2.volunteers ∧ w.id = v.id ∧ w.is_deleted = true ∧
          w.deleted_at = some now ∧ w.deleted_by = some actorId) ∧
        (∃ e, st2.audits = e :: st.audits ∧ e.action_type = .delete ∧
          e.entity_id = vid ∧
          ∃ pre, e.action_description = some (pre ++ r)) ∧
        matchCount st2.audits .volunteer vid .delete =
          matchCount st.audits .volunteer vid .delete + 1) ∧
    ((∀ x ∈ st.volunteers, x.id = vid → x.is_deleted = true) →
      softDeleteVolunteer st vid actorId ip ua (some r) now =
        .error .volunteerNotFoundOrDeleted) := by
  constructor
  · intro hfind
    have hpv := List.find?_some hfind
    have hmem := List.mem_of_find?_eq_some hfind
    simp only [Bool.and_eq_true, beq_iff_eq, Bool.not_eq_true'] at hpv
    have hcond : (v.id == vid && !v.is_deleted) = true := by
      simp [hpv.1, hpv.2]
    rcases hres : softDeleteVolunteer st vid actorId ip ua (some r) now
      with e | st2
    · exfalso
      simp only [softDeleteVolunteer, hfind] at hres
      cases hres
    refine ⟨st2, rfl, ?_, ?_, ?_⟩
    all_goals simp only [softDeleteVolunteer, hfind, Except.ok.injEq] at hres
    all_goals subst hres
    · exact ⟨{ v with
          is_deleted := true,
          deleted_by := some actorId,
          deleted_at := some now },
        List.mem_map.mpr ⟨v, hmem, by simp [hcond]⟩, rfl, rfl, rfl, rfl⟩
    · exact ⟨_, rfl, rfl, rfl,
        ⟨"Eliminación de " ++ correlativeLabel v.correlative ++ ". Razón: ",
         rfl⟩⟩
    · simp [matchCount, List.filter_cons]
  · intro hall
    have hnone : st.volunteers.find?
        (fun x => x.id == vid && !x.is_deleted) = none := by
      rw [List.find?_eq_none]
      intro x hx
      simp only [Bool.and_eq_true, beq_iff_eq, Bool.not_eq_true', not_and]
      intro h1 h2
      rw [hall x hx h1] at h2
      cases h2
    simp [softDeleteVolunteer, hnone]

/-- A concrete store with one already soft-deleted volunteer (id 1). -/
def c5DeletedState : DbState :=
  { users := [], projects := [],
    volunteers := [sampleVolunteer 1 1 7 true], audits := [] }

theorem soft_delete_volunteer_spec_witness :
    softDeleteVolunteer c5DeletedState 1 9 none none (some "dup") 3 =
      .error .volunteerNotFoundOrDeleted :=
  (soft_delete_volunteer_spec c5DeletedState 1 9 none none "dup" 3
    (sampleVolunteer 1 1 7 true)).2 (by decide)

theorem calcInsert_some (w h : Nat) (t : Nat × BmiCategory × BmiColor)
    (h1 : calculateBmiBeforeInsert w h = some t) :
    t = (bmiOf w h, bmiCategoryOf (bmiOf w h), bmiColorOf (bmiOf w h)) := by
  unfold calculateBmiBeforeInsert at h1
  split at h1
  · cases h1
  · dsimp only at h1
    split at h1
    · cases h1
    · simp only [Option.some.injEq] at h1
      exact h1.symm

/-- C6: an update whose patched weight and height both equal the stored
values passes the trigger untouched — the final row is exactly the patched
row, whose derived BMI fields are the stored ones; when weight or height
differs, the trigger rederives bmi, category and color from the new
measurements. -/
theorem update_preserves_bmi_iff_unchanged (old : Volunteer)
    (patch : VolunteerPatch) (now : Nat) :
    (patch.weight100.getD old.weight100 = old.weight100 →
      patch.height100.getD old.height100 = old.height100 →
      updateVolunteerRow old patch now = some (applyPatch old patch) ∧
      (applyPatch old patch).bmi = old.bmi ∧
      (applyPatch old patch).bmi_category = old.bmi_category ∧
      (applyPatch old patch).bmi_color = old.bmi_color) ∧
    ((patch.weight100.getD old.weight100 ≠ old.weight100 ∨
      patch.height100.getD old.height100 ≠ old.height100) →
      ∀ r, updateVolunteerRow old patch now = some r →
        r.bmi = bmiOf (patch.weight100.getD old.weight100)
          (patch.height100.getD old.height100) ∧
        r.bmi_category = bmiCategoryOf (bmiOf
          (patch.weight100.getD old.weight100)
          (patch.height100.getD old.height100)) ∧
        r.bmi_color = bmiColorOf (bmiOf
          (patch.weight100.getD old.weight100)
          (patch.height100.getD old.height100))) := by
  constructor
  · intro hw hh
    refine ⟨?_, rfl, rfl, rfl⟩
    simp [updateVolunteerRow, calculateBmiBeforeUpdate, applyPatch, hw, hh]
  · intro hne r hr
    have hcond : ((applyPatch old patch).weight100 != old.weight100 ||
        (applyPatch old patch).height100 != old.height100) = true := by
      rcases hne with h | h <;> simp [applyPatch, h]
    unfold updateVolunteerRow calculateBmiBeforeUpdate at hr
    rw [if_pos hcond] at hr
    rcases hc : calculateBmiBeforeInsert (applyPatch old patch).weight100
        (applyPatch old patch).height100 with _ | ⟨b, cat, col⟩
    · rw [hc] at hr
      cases hr
    · rw [hc] at hr
      have ht := calcInsert_some _ _ _ hc
      simp only [Prod.mk.injEq] at ht
      obtain ⟨hb, hcat, hcol⟩ := ht
      have hdel : ((applyPatch old patch).is_deleted && !old.is_deleted)
          = false := by
        simp [applyPatch]
      simp only [Option.map_some', hdel, Bool.false_eq_true, if_false,
        Option.some.injEq] at hr
      subst hr
      exact ⟨hb, hcat, hcol⟩

theorem update_preserves_bmi_iff_unchanged_witness :
    (VolunteerPatch.mk (some Gender.male) none none).weight100.getD
      (sampleVolunteer 1 1 7 false).weight100 =
      (sampleVolunteer 1 1 7 false).weight100 ∧
    updateVolunteerRow (sampleVolunteer 1 1 7 false)
      (VolunteerPatch.mk (some Gender.male) none none) 5 =
      some (applyPatch (sampleVolunteer 1 1 7 false)
        (VolunteerPatch.mk (some Gender.male) none none)) ∧
    (applyPatch (sampleVolunteer 1 1 7 false)
      (VolunteerPatch.mk (some Gender.male) none none)).bmi =
      (sampleVolunteer 1 1 7 false).bmi :=
  ⟨rfl,
   ((update_preserves_bmi_iff_unchanged (sampleVolunteer 1 1 7 false)
     (VolunteerPatch.mk (some Gender.male) none none) 5).1 rfl rfl).1,
   ((update_preserves_bmi_iff_unchanged (sampleVolunteer 1 1 7 false)
     (VolunteerPatch.mk (some Gender.male) none none) 5).1 rfl rfl).2.1⟩

/-- C7: `updateProject` permission ladder on an existing project — an
`Administrador` always passes; `Calidad` passes exactly when the body sets
`project_status` to `Archivado` and is otherwise `Forbidden`; `Usuario`
passes exactly when responsible for the project and is otherwise
`Forbidden`. -/
theorem update_project_access (actor : Actor) (p : Project)
    (ps : Option ProjectStatus) :
    (actor.role = Role.administrador →
      updateProjectAuth actor p ps = .ok ()) ∧
    (actor.role = Role.calidad →
      (updateProjectAuth actor p ps = .ok () ↔
        ps = some ProjectStatus.archivado) ∧
      (ps ≠ some ProjectStatus.archivado →
        updateProjectAuth actor p ps = .error .forbidden)) ∧
    (actor.role = Role.usuario →
      (updateProjectAuth actor p ps = .ok () ↔
        p.responsible_user_id = actor.id) ∧
      (p.responsible_user_id ≠ actor.id →
        updateProjectAuth actor p ps = .error .forbidden)) := by
  obtain ⟨aid, arole⟩ := actor
  refine ⟨?_, ?_, ?_⟩
  · intro h
    simp only at h
    subst h
    simp [updateProjectAuth]
  · intro h
    simp only at h
    subst h
    by_cases hps : ps = some ProjectStatus.archivado
    · subst hps
      refine ⟨⟨fun _ => rfl, fun _ => ?_⟩, fun hne => absurd rfl hne⟩
      simp [updateProjectAuth]
    · have hbe : (ps != some ProjectStatus.archivado) = true := by
        simp [hps]
      refine ⟨⟨fun hok => ?_, fun habs => absurd habs hps⟩, fun _ => ?_⟩
      · simp [updateProjectAuth, hbe] at hok
      · simp [updateProjectAuth, hbe]
  · intro h
    simp only at h
    subst h
    by_cases hresp : p.responsible_user_id = aid
    · refine ⟨⟨fun _ => hresp, fun _ => ?_⟩, fun hne => absurd hresp hne⟩
      simp [updateProjectAuth, hresp]
    · have hbe : (p.responsible_user_id != aid) = true := by
        simp [hresp]
      refine ⟨⟨fun hok => ?_, fun habs => absurd habs hresp⟩, fun _ => ?_⟩
      · simp [updateProjectAuth, hbe] at hok
      · simp [updateProjectAuth, hbe]

theorem update_project_access_witness :
    updateProjectAuth (Actor.mk 5 Role.calidad)
      (Project.mk 1 "Pilot" 2 ProjectStatus.activo)
      (some ProjectStatus.archivado) = .ok () ∧
    updateProjectAuth (Actor.mk 5 Role.calidad)
      (Project.mk 1 "Pilot" 2 ProjectStatus.activo) none =
      .error .forbidden ∧
    updateProjectAuth (Actor.mk 2 Role.usuario)
      (Project.mk 1 "Pilot" 2 ProjectStatus.activo) none = .ok () :=
  ⟨((update_project_access (Actor.mk 5 Role.calidad)
      (Project.mk 1 "Pilot" 2 ProjectStatus.activo)
      (some ProjectStatus.archivado)).2.1 rfl).1.mpr rfl,
   ((update_project_access (Actor.mk 5 Role.calidad)
      (Project.mk 1 "Pilot" 2 ProjectStatus.activo) none).2.1 rfl).2
     (by simp),
   ((update_project_access (Actor.mk 2 Role.usuario)
      (Project.mk 1 "Pilot" 2 ProjectStatus.activo) none).2.2 rfl).1.mpr rfl⟩

/-- C8: the audit query orders results newest-first, returns every matching
row (missing referenced entities never drop a row or fail the query), ties
each row's entity name to the best-effort lookup, and that lookup yields the
SQL NULL placeholder whenever the referenced entity is absent. -/
theorem audit_query_newest_first (st : DbState) (f : AuditFilters) :
    (auditFindAll st f).Pairwise
      (fun x y => y.entry.timestamp ≤ x.entry.timestamp) ∧
    (auditFindAll st f).length =
      (st.audits.filter (auditMatches f)).length ∧
    (∀ row ∈ auditFindAll st f,
      row.entity_name =
        resolveEntityName st row.entry.entity_type row.entry.entity_id) ∧
    (∀ eid, (∀ u ∈ st.users, u.id ≠ eid) →
      resolveEntityName st .user eid = none) ∧
    (∀ eid, (∀ p ∈ st.projects, p.id ≠ eid) →
      resolveEntityName st .project eid = none) ∧
    (∀ eid, (∀ v ∈ st.volunteers, v.id ≠ eid) →
      resolveEntityName st .volunteer eid = none) := by
  refine ⟨?_, ?_, ?_, ?_, ?_, ?_⟩
  · exact List.Pairwise.map _ (fun a b hab => hab)
      (List.sorted_insertionSort newestFirst
        (st.audits.filter (auditMatches f)))
  · simp [auditFindAll, List.length_insertionSort]
  · intro row hrow
    rcases List.mem_map.mp hrow with ⟨a, _, rfl⟩
    rfl
  · intro eid h
    have hn : st.users.find? (fun u => u.id == eid) = none :=
      List.find?_eq_none.mpr (fun u hu => by simp [h u hu])
    simp [resolveEntityName, hn]
  · intro eid h
    have hn : st.projects.find? (fun p => p.id == eid) = none :=
      List.find?_eq_none.mpr (fun p hp => by simp [h p hp])
    simp [resolveEntityName, hn]
  · intro eid h
    have hn : st.volunteers.find? (fun v => v.id == eid) = none :=
      List.find?_eq_none.mpr (fun v hv => by simp [h v hv])
    simp [resolveEntityName, hn]

/-- A store whose only audit entry references a volunteer (id 99) that is
absent from the `volunteers` table. -/
def c8State : DbState :=
  { users := [], projects := [], volunteers := [],
    audits := [{
      entity_type := .volunteer,
      entity_id := 99,
      project_id := none,
      action_type := .delete,
      user_id := 1,
      user_ip := none,
      user_agent := none,
      timestamp := 5,
      action_description := none }] }

theorem audit_query_newest_first_witness :
    resolveEntityName c8State EntityType.volunteer 99 = none :=
  (audit_query_newest_first c8State
    (AuditFilters.mk none none none none)).2.2.2.2.2 99 (by decide)

/-- The empty data store. -/
def emptyDb : DbState :=
  { users := [], projects := [], volunteers := [], audits := [] }

/-- C9 counterexample: the insert trigger does not guard its division — at
height 0 the `ROUND(w/h², 2)` division is reached and yields the SQL
division-by-zero NULL (no BMI triple is produced, and the NOT NULL `bmi`
column makes the insert fail) instead of a guarded defined result. -/
theorem bmi_zero_height_unguarded :
    calculateBmiBeforeInsert 7050 0 = none := rfl

theorem weightErrors_ne_of_range (w : Int) (hr : w ≤ 0 ∨ 50000 < w) :
    weightErrors (some w) ≠ [] := by
  have hu : weightErrors (some w) =
      if w = 0 then ["El peso es requerido y debe ser un número"]
      else if w ≤ 0 ∨ 50000 < w then
        ["El peso debe estar entre 0.01 y 500.00 kg"]
      else [] := rfl
  rw [hu]
  by_cases hz : w = 0
  · rw [if_pos hz]
    simp
  · rw [if_neg hz, if_pos hr]
    simp

theorem heightErrors_ne_of_range (h : Int) (hr : h < 100 ∨ 250 < h) :
    heightErrors (some h) ≠ [] := by
  have hu : heightErrors (some h) =
      if h = 0 then ["La estatura es requerida y debe ser un número"]
      else if h < 100 ∨ 250 < h then
        ["La estatura debe estar entre 1.00 y 2.50 m"]
      else [] := rfl
  rw [hu]
  by_cases hz : h = 0
  · rw [if_pos hz]
    simp
  · rw [if_neg hz, if_pos hr]
    simp

/-- C9 (amended): out-of-range measurements are rejected by the validation
middleware before the controller runs — the endpoint answers with the
validation errors and neither the BMI computation nor any persistence is
reached — while the BMI trigger itself performs its division unguarded:
for every weight, height 0 produces the division-by-zero NULL. -/
theorem measurement_validation (st : DbState) (pid : Nat) (g : Gender)
    (registeredBy : Nat) (ip ua : Option String) (now : Nat) (w h : Int) :
    ((w ≤ 0 ∨ 50000 < w ∨ h < 100 ∨ 250 < h) →
      validateVolunteerMeasurements (some w) (some h) ≠ [] ∧
      createVolunteerEndpoint st pid g (some w) (some h) registeredBy
          ip ua now =
        .error (.validationFailed
          (validateVolunteerMeasurements (some w) (some h)))) ∧
    (∀ w100 : Nat, calculateBmiBeforeInsert w100 0 = none) := by
  constructor
  · intro hrange
    have hne : validateVolunteerMeasurements (some w) (some h) ≠ [] := by
      unfold validateVolunteerMeasurements
      intro hnil
      rcases List.append_eq_nil.mp hnil with ⟨h1, h2⟩
      rcases hrange with hr | hr | hr | hr
      · exact weightErrors_ne_of_range w (Or.inl hr) h1
      · exact weightErrors_ne_of_range w (Or.inr hr) h1
      · exact heightErrors_ne_of_range h (Or.inl hr) h2
      · exact heightErrors_ne_of_range h (Or.inr hr) h2
    refine ⟨hne, ?_⟩
    cases hie : (validateVolunteerMeasurements (some w) (some h)).isEmpty
    · simp [createVolunteerEndpoint, hie]
    · exact absurd (List.isEmpty_iff.mp hie) hne
  · intro w100
    rfl

theorem measurement_validation_witness :
    ((-500 : Int) ≤ 0 ∨ 50000 < (-500 : Int) ∨ (175 : Int) < 100 ∨
      250 < (175 : Int)) ∧
    validateVolunteerMeasurements (some (-500)) (some 175) ≠ [] ∧
    createVolunteerEndpoint emptyDb 7 Gender.male (some (-500)) (some 175)
        1 none none 0 =
      .error (.validationFailed
        (validateVolunteerMeasurements (some (-500)) (some 175))) :=
  ⟨by decide,
   ((measurement_validation emptyDb 7 Gender.male 1 none none 0
     (-500) 175).1 (by decide)).1,
   ((measurement_validation emptyDb 7 Gender.male 1 none none 0
     (-500) 175).1 (by decide)).2⟩

/-- An active account with three failed attempts, two below the default
maximum of five. -/
def c10ThirdFailureUser : UserAccount :=
  { id := 1, username := "ana", email := "ana@imcapp.com",
    status := .activo, failed_login_attempts := 3,
    account_locked_until := none }

/-- An active account with a single failed attempt. -/
def c10EarlyUser : UserAccount :=
  { id := 1, username := "ana", email := "ana@imcapp.com",
    status := .activo, failed_login_attempts := 1,
    account_locked_until := none }

/-- C10 counterexample: with the default maximum of five, the fourth failed
attempt — counter 4, strictly below the configured maximum — already sets
the lockout timestamp, because MySQL's left-to-right UPDATE SET evaluation
makes the lockout CASE read the already-incremented counter. -/
theorem login_lockout_premature :
    (loginPost c10ThirdFailureUser false 5 15 100).2.failed_login_attempts
      = 4 ∧
    (4 : Nat) < 5 ∧
    (loginPost c10ThirdFailureUser false 5 15 100).2.account_locked_until =
      some 115 :=
  ⟨rfl, by decide, rfl⟩

/-- C10 (amended): for an active, not currently locked account, a wrong
password adds one failed attempt and — the lockout CASE reading the
already-incremented counter under MySQL's left-to-right SET evaluation —
sets the lockout timestamp `lockoutMinutes` ahead as soon as the
incremented counter reaches `maxAttempts - 1` (the fourth failure with the
default maximum of five), leaving it untouched below; while the lockout
timestamp lies in the future every attempt — whatever the password — is
rejected with the account untouched; and a right password resets the
counter to 0 and clears the lockout. -/
theorem login_lockout (u : UserAccount) (pwOk : Bool)
    (maxAttempts lockoutMinutes now : Nat) :
    (u.status = UserStatus.activo → isAccountLocked u now = false →
      (loginPost u false maxAttempts lockoutMinutes now).1 =
        .invalidCredentials ∧
      (loginPost u false maxAttempts lockoutMinutes
          now).2.failed_login_attempts = u.failed_login_attempts + 1 ∧
      (maxAttempts ≤ u.failed_login_attempts + 2 →
        (loginPost u false maxAttempts lockoutMinutes
          now).2.account_locked_until = some (now + lockoutMinutes)) ∧
      (u.failed_login_attempts + 2 < maxAttempts →
        (loginPost u false maxAttempts lockoutMinutes
          now).2.account_locked_until = u.account_locked_until)) ∧
    (u.status = UserStatus.activo → ∀ t, u.account_locked_until = some t →
      now < t →
      loginPost u pwOk maxAttempts lockoutMinutes now =
        (.accountLocked, u)) ∧
    (u.status = UserStatus.activo → isAccountLocked u now = false →
      (loginPost u true maxAttempts lockoutMinutes now).1 = .success ∧
      (loginPost u true maxAttempts lockoutMinutes
        now).2.failed_login_attempts = 0 ∧
      (loginPost u true maxAttempts lockoutMinutes
        now).2.account_locked_until = none) := by
  refine ⟨?_, ?_, ?_⟩
  · intro hs hl
    have hbe : (u.status != UserStatus.activo) = false := by simp [hs]
    refine ⟨by simp [loginPost, hbe, hl],
      by simp [loginPost, hbe, hl, incrementFailedAttempts],
      fun hmax => ?_, fun hbelow => ?_⟩
    · have hm : maxAttempts ≤ u.failed_login_attempts + 1 + 1 := by omega
      simp [loginPost, hbe, hl, incrementFailedAttempts, hm]
    · have hnot : ¬ maxAttempts ≤ u.failed_login_attempts + 1 + 1 := by
        omega
      simp [loginPost, hbe, hl, incrementFailedAttempts, hnot]
  · intro hs t ht hlt
    have hbe : (u.status != UserStatus.activo) = false := by simp [hs]
    have hlock : isAccountLocked u now = true := by
      simp [isAccountLocked, ht, hlt]
    simp [loginPost, hbe, hlock]
  · intro hs hl
    have hbe : (u.status != UserStatus.activo) = false := by simp [hs]
    exact ⟨by simp [loginPost, hbe, hl],
      by simp [loginPost, hbe, hl, resetFailedAttempts],
      by simp [loginPost, hbe, hl, resetFailedAttempts]⟩

/-- An active account with four failed attempts, not locked. -/
def c10User : UserAccount :=
  { id := 1, username := "ana", email := "ana@imcapp.com",
    status := .activo, failed_login_attempts := 4,
    account_locked_until := none }

/-- A locked account: lockout timestamp at minute 115. -/
def c10LockedUser : UserAccount :=
  { id := 1, username := "ana", email := "ana@imcapp.com",
    status := .activo, failed_login_attempts := 4,
    account_locked_until := some 115 }

theorem login_lockout_witness :
    (loginPost c10ThirdFailureUser false 5 15 100).2.failed_login_attempts
      = 4 ∧
    (loginPost c10ThirdFailureUser false 5 15
      100).2.account_locked_until = some 115 ∧
    (loginPost c10EarlyUser false 5 15 100).2.account_locked_until =
      none ∧
    loginPost c10LockedUser true 5 15 100 =
      (.accountLocked, c10LockedUser) ∧
    (loginPost c10User true 5 15 100).2.failed_login_attempts = 0 :=
  ⟨((login_lockout c10ThirdFailureUser false 5 15 100).1 rfl rfl).2.1,
   ((login_lockout c10ThirdFailureUser false 5 15 100).1 rfl rfl).2.2.1
     (by decide),
   ((login_lockout c10EarlyUser false 5 15 100).1 rfl rfl).2.2.2
     (by decide),
   (login_lockout c10LockedUser true 5 15 100).2.1 rfl 115 rfl
     (by decide),
   ((login_lockout c10User true 5 15 100).2.2 rfl rfl).2.1⟩

/-- C1 counterexample: with the project INSERT succeeding and the audit
INSERT failing, `createProject` reports failure, yet the auto-committed
project row persists with zero audit entries — the failed mutation leaves a
domain-state change, contradicting the claimed atomicity. -/
theorem create_project_not_atomic :
    (createProjectJs emptyDb (Actor.mk 1 Role.administrador)
      (ProjectBody.mk "Alpha" none) (WriteOutcome.mk true false)
      none none 0).1 = .error .dbError ∧
    (createProjectJs emptyDb (Actor.mk 1 Role.administrador)
      (ProjectBody.mk "Alpha" none) (WriteOutcome.mk true false)
      none none 0).2.projects ≠ emptyDb.projects ∧
    (createProjectJs emptyDb (Actor.mk 1 Role.administrador)
      (ProjectBody.mk "Alpha" none) (WriteOutcome.mk true false)
      none none 0).2.audits = emptyDb.audits := by
  refine ⟨rfl, ?_, rfl⟩
  intro hcontra
  cases hcontra

/-- C1 (amended): a successful `createProject` appends the project row and
exactly one matching CREATE audit entry, and a failed project INSERT leaves
the store untouched; but the two INSERTs are separate auto-committed
statements with no enclosing transaction, so an audit INSERT failure leaves
the new project row persisted with no audit entry — atomicity holds in one
direction only. -/
theorem create_project_audit_coupling (st : DbState) (actor : Actor)
    (body : ProjectBody) (ip ua : Option String) (now : Nat) :
    ((createProjectJs st actor body (WriteOutcome.mk true true)
        ip ua now).1 = .ok () ∧
     matchCount (createProjectJs st actor body (WriteOutcome.mk true true)
         ip ua now).2.audits
       .project (nextId (st.projects.map (fun p => p.id))) .create =
     matchCount st.audits
       .project (nextId (st.projects.map (fun p => p.id))) .create + 1 ∧
     (∃ p, (createProjectJs st actor body (WriteOutcome.mk true true)
         ip ua now).2.projects = p :: st.projects ∧
       p.id = nextId (st.projects.map (fun q => q.id)) ∧
       p.responsible_user_id = responsibleFor actor body)) ∧
    (∀ aw, createProjectJs st actor body (WriteOutcome.mk false aw)
      ip ua now = (.error .dbError, st)) ∧
    ((createProjectJs st actor body (WriteOutcome.mk true false)
        ip ua now).1 = .error .dbError ∧
     (createProjectJs st actor body (WriteOutcome.mk true false)
       ip ua now).2.audits = st.audits ∧
     ∃ p, (createProjectJs st actor body (WriteOutcome.mk true false)
       ip ua now).2.projects = p :: st.projects) := by
  refine ⟨⟨rfl, ?_, ⟨_, rfl, rfl, rfl⟩⟩, fun aw => rfl,
    ⟨rfl, rfl, ⟨_, rfl⟩⟩⟩
  show matchCount (_ :: st.audits) _ _ _ = _ + 1
  simp [matchCount, List.filter_cons]

theorem create_project_audit_coupling_witness :
    (createProjectJs emptyDb (Actor.mk 1 Role.administrador)
      (ProjectBody.mk "Alpha" none) (WriteOutcome.mk true true)
      none none 0).1 = .ok () ∧
    matchCount (createProjectJs emptyDb (Actor.mk 1 Role.administrador)
      (ProjectBody.mk "Alpha" none) (WriteOutcome.mk true true)
      none none 0).2.audits .project 1 .create = 1 :=
  ⟨(create_project_audit_coupling emptyDb (Actor.mk 1 Role.administrador)
      (ProjectBody.mk "Alpha" none) none none 0).1.1,
   (create_project_audit_coupling emptyDb (Actor.mk 1 Role.administrador)
      (ProjectBody.mk "Alpha" none) none none 0).1.2.1⟩
